import Mathlib

/-!
Verification of the shortint parameter subsystem of tfhe-rs
(src/tfhe/src/shortint/parameters/mod.rs): the parameter value types, the
configuration handle over bootstrap-only / wopbs-only / combined parameter
records, the validated combined constructor, the accessors, the preset
catalog and the resolver mapping a desired (message, carry) capacity to a
catalog preset.
-/

/-- Lattice dimension of the small LWE key (core_crypto wrapper around usize). -/
structure LweDimension where
  val : ℕ
deriving DecidableEq

/-- Dimension of the GLWE key (core_crypto wrapper around usize). -/
structure GlweDimension where
  val : ℕ
deriving DecidableEq

/-- Degree of the polynomial ring (core_crypto wrapper around usize). -/
structure PolynomialSize where
  val : ℕ
deriving DecidableEq

/-- Modelled from the spec: StandardDev (core_crypto::commons::dispersion, not
under src/) wraps a positive real-valued noise standard deviation stored as an
f64; it is modelled here over ℚ so that the exact decimal literals of the
catalog are representable and equality is decidable. -/
structure StandardDev where
  val : ℚ
deriving DecidableEq

/-- Gadget decomposition base log (core_crypto wrapper around usize). -/
structure DecompositionBaseLog where
  val : ℕ
deriving DecidableEq

/-- Gadget decomposition level count (core_crypto wrapper around usize). -/
structure DecompositionLevelCount where
  val : ℕ
deriving DecidableEq

/-- The number of values on which the message is encoded (MessageModulus(pub usize)). -/
structure MessageModulus where
  val : ℕ
deriving DecidableEq

/-- The number of values on which the carry is encoded (CarryModulus(pub usize)). -/
structure CarryModulus where
  val : ℕ
deriving DecidableEq

/-- Modelled from the spec: CiphertextModulus (core_crypto::commons::parameters,
not under src/) determines in what ring computations are made; the catalog only
uses the native machine-word modulus, modelled as the value of the modulus. -/
structure CiphertextModulus where
  modulus : ℕ
deriving DecidableEq

/-- The native (machine-word, 2^64) ciphertext modulus. -/
def CiphertextModulus.new_native : CiphertextModulus :=
  ⟨2 ^ 64⟩

/-- The choice of encryption key for shortint ciphertexts. -/
inductive EncryptionKeyChoice where
  | Big
  | Small
deriving DecidableEq, Fintype

/-- Modelled from the spec: PBSOrder (shortint::ciphertext, not under src/) is
the operational order of the bootstrap + key-switch pipeline; mod.rs names its
two variants KeyswitchBootstrap (the keyswitch is computed first, followed by
the PBS) and BootstrapKeyswitch (the PBS is computed first, followed by the
keyswitch). -/
inductive PBSOrder where
  | KeyswitchBootstrap
  | BootstrapKeyswitch
deriving DecidableEq, Fintype

/-- The key-choice mapping (impl From EncryptionKeyChoice for PBSOrder). -/
def PBSOrder.from_encryption_key_choice : EncryptionKeyChoice → PBSOrder
  | EncryptionKeyChoice.Big => PBSOrder.KeyswitchBootstrap
  | EncryptionKeyChoice.Small => PBSOrder.BootstrapKeyswitch

/-- The set of cryptographic parameters for a programmable-bootstrap +
key-switch pipeline (struct PBSParameters). -/
structure PBSParameters where
  lwe_dimension : LweDimension
  glwe_dimension : GlweDimension
  polynomial_size : PolynomialSize
  lwe_modular_std_dev : StandardDev
  glwe_modular_std_dev : StandardDev
  pbs_base_log : DecompositionBaseLog
  pbs_level : DecompositionLevelCount
  ks_base_log : DecompositionBaseLog
  ks_level : DecompositionLevelCount
  message_modulus : MessageModulus
  carry_modulus : CarryModulus
  ciphertext_modulus : CiphertextModulus
  encryption_key_choice : EncryptionKeyChoice
deriving DecidableEq

/-- Modelled from the spec: WopbsParameters (parameters_wopbs.rs, not under
src/) is the structurally parallel extended-operation parameter record; it is
modelled with the fields that mod.rs reads from it (the shared-field accessors
read all thirteen, the validated constructor compares the message modulus, the
carry modulus, the ciphertext modulus and the encryption key choice). -/
structure WopbsParameters where
  lwe_dimension : LweDimension
  glwe_dimension : GlweDimension
  polynomial_size : PolynomialSize
  lwe_modular_std_dev : StandardDev
  glwe_modular_std_dev : StandardDev
  pbs_base_log : DecompositionBaseLog
  pbs_level : DecompositionLevelCount
  ks_base_log : DecompositionBaseLog
  ks_level : DecompositionLevelCount
  message_modulus : MessageModulus
  carry_modulus : CarryModulus
  ciphertext_modulus : CiphertextModulus
  encryption_key_choice : EncryptionKeyChoice
deriving DecidableEq

/-- The closed tagged union over the three configuration shapes
(enum ShortintParameterSetInner). -/
inductive ShortintParameterSetInner where
  | PBSOnly (params : PBSParameters)
  | WopbsOnly (params : WopbsParameters)
  | PBSAndWopbs (pbs_params : PBSParameters) (wopbs_params : WopbsParameters)
deriving DecidableEq

/-- Classification predicate: the inner variant is PBSOnly. -/
def ShortintParameterSetInner.pbs_only : ShortintParameterSetInner → Bool
  | ShortintParameterSetInner.PBSOnly _ => true
  | _ => false

/-- Classification predicate: the inner variant is WopbsOnly. -/
def ShortintParameterSetInner.wopbs_only : ShortintParameterSetInner → Bool
  | ShortintParameterSetInner.WopbsOnly _ => true
  | _ => false

/-- Classification predicate: the inner variant is PBSAndWopbs. -/
def ShortintParameterSetInner.pbs_and_wopbs : ShortintParameterSetInner → Bool
  | ShortintParameterSetInner.PBSAndWopbs _ _ => true
  | _ => false

/-- The configuration handle (struct ShortintParameterSet). -/
structure ShortintParameterSet where
  inner : ShortintParameterSetInner
deriving DecidableEq

/-- Wraps a bootstrap record as a PBSOnly handle (new_pbs_param_set). -/
def ShortintParameterSet.new_pbs_param_set (params : PBSParameters) : ShortintParameterSet :=
  { inner := ShortintParameterSetInner.PBSOnly params }

/-- Wraps an extended record as a WopbsOnly handle (new_wopbs_param_set). -/
def ShortintParameterSet.new_wopbs_param_set (params : WopbsParameters) : ShortintParameterSet :=
  { inner := ShortintParameterSetInner.WopbsOnly params }

/-- The error message returned by try_new_pbs_and_wopbs_param_set on any
mismatching pair of records. -/
def incompatible_params_err : String :=
  "Incompatible PBSParameters and WopbsParameters, this may be due to mismatched carry moduli, message moduli, ciphertext moduli or encryption key choices"

/-- The validated constructor for the combined PBSAndWopbs handle
(try_new_pbs_and_wopbs_param_set). -/
def ShortintParameterSet.try_new_pbs_and_wopbs_param_set
    (p : PBSParameters × WopbsParameters) : Except String ShortintParameterSet :=
  if p.1.carry_modulus ≠ p.2.carry_modulus
      ∨ p.1.message_modulus ≠ p.2.message_modulus
      ∨ p.1.ciphertext_modulus ≠ p.2.ciphertext_modulus
      ∨ p.1.encryption_key_choice ≠ p.2.encryption_key_choice then
    Except.error incompatible_params_err
  else
    Except.ok { inner := ShortintParameterSetInner.PBSAndWopbs p.1 p.2 }

/-- Projection onto the bootstrap record (pbs_parameters). -/
def ShortintParameterSet.pbs_parameters (s : ShortintParameterSet) : Option PBSParameters :=
  match s.inner with
  | ShortintParameterSetInner.PBSOnly params => some params
  | ShortintParameterSetInner.WopbsOnly _ => none
  | ShortintParameterSetInner.PBSAndWopbs params _ => some params

/-- Projection onto the extended record (wopbs_parameters). -/
def ShortintParameterSet.wopbs_parameters (s : ShortintParameterSet) : Option WopbsParameters :=
  match s.inner with
  | ShortintParameterSetInner.PBSOnly _ => none
  | ShortintParameterSetInner.WopbsOnly params => some params
  | ShortintParameterSetInner.PBSAndWopbs _ params => some params

/-- Shared-field accessor lwe_dimension over all three variants. -/
def ShortintParameterSet.lwe_dimension (s : ShortintParameterSet) : LweDimension :=
  match s.inner with
  | ShortintParameterSetInner.PBSOnly params => params.lwe_dimension
  | ShortintParameterSetInner.WopbsOnly params => params.lwe_dimension
  | ShortintParameterSetInner.PBSAndWopbs params _ => params.lwe_dimension

/-- Shared-field accessor glwe_dimension over all three variants. -/
def ShortintParameterSet.glwe_dimension (s : ShortintParameterSet) : GlweDimension :=
  match s.inner with
  | ShortintParameterSetInner.PBSOnly params => params.glwe_dimension
  | ShortintParameterSetInner.WopbsOnly params => params.glwe_dimension
  | ShortintParameterSetInner.PBSAndWopbs params _ => params.glwe_dimension

/-- Shared-field accessor polynomial_size over all three variants. -/
def ShortintParameterSet.polynomial_size (s : ShortintParameterSet) : PolynomialSize :=
  match s.inner with
  | ShortintParameterSetInner.PBSOnly params => params.polynomial_size
  | ShortintParameterSetInner.WopbsOnly params => params.polynomial_size
  | ShortintParameterSetInner.PBSAndWopbs params _ => params.polynomial_size

/-- Shared-field accessor lwe_modular_std_dev over all three variants. -/
def ShortintParameterSet.lwe_modular_std_dev (s : ShortintParameterSet) : StandardDev :=
  match s.inner with
  | ShortintParameterSetInner.PBSOnly params => params.lwe_modular_std_dev
  | ShortintParameterSetInner.WopbsOnly params => params.lwe_modular_std_dev
  | ShortintParameterSetInner.PBSAndWopbs params _ => params.lwe_modular_std_dev

/-- Shared-field accessor glwe_modular_std_dev over all three variants. -/
def ShortintParameterSet.glwe_modular_std_dev (s : ShortintParameterSet) : StandardDev :=
  match s.inner with
  | ShortintParameterSetInner.PBSOnly params => params.glwe_modular_std_dev
  | ShortintParameterSetInner.WopbsOnly params => params.glwe_modular_std_dev
  | ShortintParameterSetInner.PBSAndWopbs params _ => params.glwe_modular_std_dev

/-- Shared-field accessor pbs_base_log over all three variants. -/
def ShortintParameterSet.pbs_base_log (s : ShortintParameterSet) : DecompositionBaseLog :=
  match s.inner with
  | ShortintParameterSetInner.PBSOnly params => params.pbs_base_log
  | ShortintParameterSetInner.WopbsOnly params => params.pbs_base_log
  | ShortintParameterSetInner.PBSAndWopbs params _ => params.pbs_base_log

/-- Shared-field accessor pbs_level over all three variants. -/
def ShortintParameterSet.pbs_level (s : ShortintParameterSet) : DecompositionLevelCount :=
  match s.inner with
  | ShortintParameterSetInner.PBSOnly params => params.pbs_level
  | ShortintParameterSetInner.WopbsOnly params => params.pbs_level
  | ShortintParameterSetInner.PBSAndWopbs params _ => params.pbs_level

/-- Shared-field accessor ks_base_log over all three variants. -/
def ShortintParameterSet.ks_base_log (s : ShortintParameterSet) : DecompositionBaseLog :=
  match s.inner with
  | ShortintParameterSetInner.PBSOnly params => params.ks_base_log
  | ShortintParameterSetInner.WopbsOnly params => params.ks_base_log
  | ShortintParameterSetInner.PBSAndWopbs params _ => params.ks_base_log

/-- Shared-field accessor ks_level over all three variants. -/
def ShortintParameterSet.ks_level (s : ShortintParameterSet) : DecompositionLevelCount :=
  match s.inner with
  | ShortintParameterSetInner.PBSOnly params => params.ks_level
  | ShortintParameterSetInner.WopbsOnly params => params.ks_level
  | ShortintParameterSetInner.PBSAndWopbs params _ => params.ks_level

/-- Shared-field accessor message_modulus over all three variants. -/
def ShortintParameterSet.message_modulus (s : ShortintParameterSet) : MessageModulus :=
  match s.inner with
  | ShortintParameterSetInner.PBSOnly params => params.message_modulus
  | ShortintParameterSetInner.WopbsOnly params => params.message_modulus
  | ShortintParameterSetInner.PBSAndWopbs params _ => params.message_modulus

/-- Shared-field accessor carry_modulus over all three variants. -/
def ShortintParameterSet.carry_modulus (s : ShortintParameterSet) : CarryModulus :=
  match s.inner with
  | ShortintParameterSetInner.PBSOnly params => params.carry_modulus
  | ShortintParameterSetInner.WopbsOnly params => params.carry_modulus
  | ShortintParameterSetInner.PBSAndWopbs params _ => params.carry_modulus

/-- Shared-field accessor ciphertext_modulus over all three variants. -/
def ShortintParameterSet.ciphertext_modulus (s : ShortintParameterSet) : CiphertextModulus :=
  match s.inner with
  | ShortintParameterSetInner.PBSOnly params => params.ciphertext_modulus
  | ShortintParameterSetInner.WopbsOnly params => params.ciphertext_modulus
  | ShortintParameterSetInner.PBSAndWopbs params _ => params.ciphertext_modulus

/-- Shared-field accessor encryption_key_choice over all three variants. -/
def ShortintParameterSet.encryption_key_choice (s : ShortintParameterSet) : EncryptionKeyChoice :=
  match s.inner with
  | ShortintParameterSetInner.PBSOnly params => params.encryption_key_choice
  | ShortintParameterSetInner.WopbsOnly params => params.encryption_key_choice
  | ShortintParameterSetInner.PBSAndWopbs params _ => params.encryption_key_choice

/-- Classification predicate on the handle (pbs_only). -/
def ShortintParameterSet.pbs_only (s : ShortintParameterSet) : Bool :=
  s.inner.pbs_only

/-- Classification predicate on the handle (wopbs_only). -/
def ShortintParameterSet.wopbs_only (s : ShortintParameterSet) : Bool :=
  s.inner.wopbs_only

/-- Classification predicate on the handle (pbs_and_wopbs). -/
def ShortintParameterSet.pbs_and_wopbs (s : ShortintParameterSet) : Bool :=
  s.inner.pbs_and_wopbs

/-- The four shared fields compared by the validated constructor are pairwise
equal across a bootstrap and an extended record. -/
def shared_fields_eq (p : PBSParameters) (w : WopbsParameters) : Prop :=
  p.carry_modulus = w.carry_modulus ∧ p.message_modulus = w.message_modulus
    ∧ p.ciphertext_modulus = w.ciphertext_modulus
    ∧ p.encryption_key_choice = w.encryption_key_choice

instance (p : PBSParameters) (w : WopbsParameters) : Decidable (shared_fields_eq p w) := by
  unfold shared_fields_eq
  infer_instance

/-- Catalog preset with 1 message bit and 1 carry bit. -/
def PARAM_MESSAGE_1_CARRY_1 : PBSParameters :=
  { lwe_dimension := ⟨684⟩
    glwe_dimension := ⟨3⟩
    polynomial_size := ⟨512⟩
    lwe_modular_std_dev := ⟨0.00002043784477291318⟩
    glwe_modular_std_dev := ⟨0.0000000000034525330484572114⟩
    pbs_base_log := ⟨18⟩
    pbs_level := ⟨1⟩
    ks_level := ⟨3⟩
    ks_base_log := ⟨4⟩
    message_modulus := ⟨2⟩
    carry_modulus := ⟨2⟩
    ciphertext_modulus := CiphertextModulus.new_native
    encryption_key_choice := EncryptionKeyChoice.Big }

/-- Catalog preset with 1 message bit and 2 carry bits. -/
def PARAM_MESSAGE_1_CARRY_2 : PBSParameters :=
  { lwe_dimension := ⟨742⟩
    glwe_dimension := ⟨2⟩
    polynomial_size := ⟨1024⟩
    lwe_modular_std_dev := ⟨0.000007069849454709433⟩
    glwe_modular_std_dev := ⟨0.00000000000000029403601535432533⟩
    pbs_base_log := ⟨23⟩
    pbs_level := ⟨1⟩
    ks_level := ⟨3⟩
    ks_base_log := ⟨4⟩
    message_modulus := ⟨2⟩
    carry_modulus := ⟨4⟩
    ciphertext_modulus := CiphertextModulus.new_native
    encryption_key_choice := EncryptionKeyChoice.Big }

/-- Catalog preset with 1 message bit and 3 carry bits. -/
def PARAM_MESSAGE_1_CARRY_3 : PBSParameters :=
  { lwe_dimension := ⟨745⟩
    glwe_dimension := ⟨1⟩
    polynomial_size := ⟨2048⟩
    lwe_modular_std_dev := ⟨0.000006692125069956277⟩
    glwe_modular_std_dev := ⟨0.00000000000000029403601535432533⟩
    pbs_base_log := ⟨23⟩
    pbs_level := ⟨1⟩
    ks_level := ⟨5⟩
    ks_base_log := ⟨3⟩
    message_modulus := ⟨2⟩
    carry_modulus := ⟨8⟩
    ciphertext_modulus := CiphertextModulus.new_native
    encryption_key_choice := EncryptionKeyChoice.Big }

/-- Catalog preset with 1 message bit and 4 carry bits. -/
def PARAM_MESSAGE_1_CARRY_4 : PBSParameters :=
  { lwe_dimension := ⟨807⟩
    glwe_dimension := ⟨1⟩
    polynomial_size := ⟨4096⟩
    lwe_modular_std_dev := ⟨0.0000021515145918907506⟩
    glwe_modular_std_dev := ⟨0.0000000000000000002168404344971009⟩
    pbs_base_log := ⟨15⟩
    pbs_level := ⟨2⟩
    ks_level := ⟨5⟩
    ks_base_log := ⟨3⟩
    message_modulus := ⟨2⟩
    carry_modulus := ⟨16⟩
    ciphertext_modulus := CiphertextModulus.new_native
    encryption_key_choice := EncryptionKeyChoice.Big }

/-- Catalog preset with 1 message bit and 5 carry bits. -/
def PARAM_MESSAGE_1_CARRY_5 : PBSParameters :=
  { lwe_dimension := ⟨864⟩
    glwe_dimension := ⟨1⟩
    polynomial_size := ⟨8192⟩
    lwe_modular_std_dev := ⟨0.000000757998020150446⟩
    glwe_modular_std_dev := ⟨0.0000000000000000002168404344971009⟩
    pbs_base_log := ⟨15⟩
    pbs_level := ⟨2⟩
    ks_level := ⟨6⟩
    ks_base_log := ⟨3⟩
    message_modulus := ⟨2⟩
    carry_modulus := ⟨32⟩
    ciphertext_modulus := CiphertextModulus.new_native
    encryption_key_choice := EncryptionKeyChoice.Big }

/-- Catalog preset with 1 message bit and 6 carry bits. -/
def PARAM_MESSAGE_1_CARRY_6 : PBSParameters :=
  { lwe_dimension := ⟨930⟩
    glwe_dimension := ⟨1⟩
    polynomial_size := ⟨16384⟩
    lwe_modular_std_dev := ⟨0.00000022649232786295453⟩
    glwe_modular_std_dev := ⟨0.0000000000000000002168404344971009⟩
    pbs_base_log := ⟨11⟩
    pbs_level := ⟨3⟩
    ks_level := ⟨6⟩
    ks_base_log := ⟨3⟩
    message_modulus := ⟨2⟩
    carry_modulus := ⟨64⟩
    ciphertext_modulus := CiphertextModulus.new_native
    encryption_key_choice := EncryptionKeyChoice.Big }

/-- Catalog preset with 1 message bit and 7 carry bits. -/
def PARAM_MESSAGE_1_CARRY_7 : PBSParameters :=
  { lwe_dimension := ⟨1004⟩
    glwe_dimension := ⟨1⟩
    polynomial_size := ⟨32768⟩
    lwe_modular_std_dev := ⟨0.00000005845871624688967⟩
    glwe_modular_std_dev := ⟨0.0000000000000000002168404344971009⟩
    pbs_base_log := ⟨11⟩
    pbs_level := ⟨3⟩
    ks_level := ⟨7⟩
    ks_base_log := ⟨3⟩
    message_modulus := ⟨2⟩
    carry_modulus := ⟨128⟩
    ciphertext_modulus := CiphertextModulus.new_native
    encryption_key_choice := EncryptionKeyChoice.Big }

/-- Catalog preset with 2 message bits and 1 carry bit. -/
def PARAM_MESSAGE_2_CARRY_1 : PBSParameters :=
  { lwe_dimension := ⟨742⟩
    glwe_dimension := ⟨2⟩
    polynomial_size := ⟨1024⟩
    lwe_modular_std_dev := ⟨0.000007069849454709433⟩
    glwe_modular_std_dev := ⟨0.00000000000000029403601535432533⟩
    pbs_base_log := ⟨23⟩
    pbs_level := ⟨1⟩
    ks_level := ⟨3⟩
    ks_base_log := ⟨4⟩
    message_modulus := ⟨4⟩
    carry_modulus := ⟨2⟩
    ciphertext_modulus := CiphertextModulus.new_native
    encryption_key_choice := EncryptionKeyChoice.Big }

/-- Catalog preset with 2 message bits and 2 carry bits; also the resolver's
defined fallback preset. -/
def PARAM_MESSAGE_2_CARRY_2 : PBSParameters :=
  { lwe_dimension := ⟨742⟩
    glwe_dimension := ⟨1⟩
    polynomial_size := ⟨2048⟩
    lwe_modular_std_dev := ⟨0.000007069849454709433⟩
    glwe_modular_std_dev := ⟨0.00000000000000029403601535432533⟩
    pbs_base_log := ⟨23⟩
    pbs_level := ⟨1⟩
    ks_level := ⟨5⟩
    ks_base_log := ⟨3⟩
    message_modulus := ⟨4⟩
    carry_modulus := ⟨4⟩
    ciphertext_modulus := CiphertextModulus.new_native
    encryption_key_choice := EncryptionKeyChoice.Big }

/-- Catalog preset with 2 message bits and 3 carry bits. -/
def PARAM_MESSAGE_2_CARRY_3 : PBSParameters :=
  { lwe_dimension := ⟨856⟩
    glwe_dimension := ⟨1⟩
    polynomial_size := ⟨4096⟩
    lwe_modular_std_dev := ⟨0.0000008775214009854235⟩
    glwe_modular_std_dev := ⟨0.0000000000000000002168404344971009⟩
    pbs_base_log := ⟨22⟩
    pbs_level := ⟨1⟩
    ks_level := ⟨6⟩
    ks_base_log := ⟨3⟩
    message_modulus := ⟨4⟩
    carry_modulus := ⟨8⟩
    ciphertext_modulus := CiphertextModulus.new_native
    encryption_key_choice := EncryptionKeyChoice.Big }

/-- Catalog preset with 2 message bits and 4 carry bits. -/
def PARAM_MESSAGE_2_CARRY_4 : PBSParameters :=
  { lwe_dimension := ⟨864⟩
    glwe_dimension := ⟨1⟩
    polynomial_size := ⟨8192⟩
    lwe_modular_std_dev := ⟨0.000000757998020150446⟩
    glwe_modular_std_dev := ⟨0.0000000000000000002168404344971009⟩
    pbs_base_log := ⟨15⟩
    pbs_level := ⟨2⟩
    ks_level := ⟨6⟩
    ks_base_log := ⟨3⟩
    message_modulus := ⟨4⟩
    carry_modulus := ⟨16⟩
    ciphertext_modulus := CiphertextModulus.new_native
    encryption_key_choice := EncryptionKeyChoice.Big }

/-- Catalog preset with 2 message bits and 5 carry bits. -/
def PARAM_MESSAGE_2_CARRY_5 : PBSParameters :=
  { lwe_dimension := ⟨934⟩
    glwe_dimension := ⟨1⟩
    polynomial_size := ⟨16384⟩
    lwe_modular_std_dev := ⟨0.00000021050318566634375⟩
    glwe_modular_std_dev := ⟨0.0000000000000000002168404344971009⟩
    pbs_base_log := ⟨15⟩
    pbs_level := ⟨2⟩
    ks_level := ⟨6⟩
    ks_base_log := ⟨3⟩
    message_modulus := ⟨4⟩
    carry_modulus := ⟨32⟩
    ciphertext_modulus := CiphertextModulus.new_native
    encryption_key_choice := EncryptionKeyChoice.Big }

/-- Catalog preset with 2 message bits and 6 carry bits. -/
def PARAM_MESSAGE_2_CARRY_6 : PBSParameters :=
  { lwe_dimension := ⟨987⟩
    glwe_dimension := ⟨1⟩
    polynomial_size := ⟨32768⟩
    lwe_modular_std_dev := ⟨0.00000007979529246348835⟩
    glwe_modular_std_dev := ⟨0.0000000000000000002168404344971009⟩
    pbs_base_log := ⟨11⟩
    pbs_level := ⟨3⟩
    ks_level := ⟨7⟩
    ks_base_log := ⟨3⟩
    message_modulus := ⟨4⟩
    carry_modulus := ⟨64⟩
    ciphertext_modulus := CiphertextModulus.new_native
    encryption_key_choice := EncryptionKeyChoice.Big }

/-- Catalog preset with 3 message bits and 1 carry bit. -/
def PARAM_MESSAGE_3_CARRY_1 : PBSParameters :=
  { lwe_dimension := ⟨742⟩
    glwe_dimension := ⟨1⟩
    polynomial_size := ⟨2048⟩
    lwe_modular_std_dev := ⟨0.000007069849454709433⟩
    glwe_modular_std_dev := ⟨0.00000000000000029403601535432533⟩
    pbs_base_log := ⟨23⟩
    pbs_level := ⟨1⟩
    ks_level := ⟨5⟩
    ks_base_log := ⟨3⟩
    message_modulus := ⟨8⟩
    carry_modulus := ⟨2⟩
    ciphertext_modulus := CiphertextModulus.new_native
    encryption_key_choice := EncryptionKeyChoice.Big }

/-- Catalog preset with 3 message bits and 2 carry bits. -/
def PARAM_MESSAGE_3_CARRY_2 : PBSParameters :=
  { lwe_dimension := ⟨812⟩
    glwe_dimension := ⟨1⟩
    polynomial_size := ⟨4096⟩
    lwe_modular_std_dev := ⟨0.0000019633637461248447⟩
    glwe_modular_std_dev := ⟨0.0000000000000000002168404344971009⟩
    pbs_base_log := ⟨22⟩
    pbs_level := ⟨1⟩
    ks_level := ⟨5⟩
    ks_base_log := ⟨3⟩
    message_modulus := ⟨8⟩
    carry_modulus := ⟨4⟩
    ciphertext_modulus := CiphertextModulus.new_native
    encryption_key_choice := EncryptionKeyChoice.Big }

/-- Catalog preset with 3 message bits and 3 carry bits. -/
def PARAM_MESSAGE_3_CARRY_3 : PBSParameters :=
  { lwe_dimension := ⟨864⟩
    glwe_dimension := ⟨1⟩
    polynomial_size := ⟨8192⟩
    lwe_modular_std_dev := ⟨0.000000757998020150446⟩
    glwe_modular_std_dev := ⟨0.0000000000000000002168404344971009⟩
    pbs_base_log := ⟨15⟩
    pbs_level := ⟨2⟩
    ks_level := ⟨6⟩
    ks_base_log := ⟨3⟩
    message_modulus := ⟨8⟩
    carry_modulus := ⟨8⟩
    ciphertext_modulus := CiphertextModulus.new_native
    encryption_key_choice := EncryptionKeyChoice.Big }

/-- Catalog preset with 3 message bits and 4 carry bits. -/
def PARAM_MESSAGE_3_CARRY_4 : PBSParameters :=
  { lwe_dimension := ⟨930⟩
    glwe_dimension := ⟨1⟩
    polynomial_size := ⟨16384⟩
    lwe_modular_std_dev := ⟨0.00000022649232786295453⟩
    glwe_modular_std_dev := ⟨0.0000000000000000002168404344971009⟩
    pbs_base_log := ⟨15⟩
    pbs_level := ⟨2⟩
    ks_level := ⟨6⟩
    ks_base_log := ⟨3⟩
    message_modulus := ⟨8⟩
    carry_modulus := ⟨16⟩
    ciphertext_modulus := CiphertextModulus.new_native
    encryption_key_choice := EncryptionKeyChoice.Big }

/-- Catalog preset with 3 message bits and 5 carry bits. -/
def PARAM_MESSAGE_3_CARRY_5 : PBSParameters :=
  { lwe_dimension := ⟨985⟩
    glwe_dimension := ⟨1⟩
    polynomial_size := ⟨32768⟩
    lwe_modular_std_dev := ⟨0.00000008277032914509569⟩
    glwe_modular_std_dev := ⟨0.0000000000000000002168404344971009⟩
    pbs_base_log := ⟨11⟩
    pbs_level := ⟨3⟩
    ks_level := ⟨7⟩
    ks_base_log := ⟨3⟩
    message_modulus := ⟨8⟩
    carry_modulus := ⟨32⟩
    ciphertext_modulus := CiphertextModulus.new_native
    encryption_key_choice := EncryptionKeyChoice.Big }

/-- Catalog preset with 4 message bits and 1 carry bit. -/
def PARAM_MESSAGE_4_CARRY_1 : PBSParameters :=
  { lwe_dimension := ⟨808⟩
    glwe_dimension := ⟨1⟩
    polynomial_size := ⟨4096⟩
    lwe_modular_std_dev := ⟨0.0000021124945159091033⟩
    glwe_modular_std_dev := ⟨0.0000000000000000002168404344971009⟩
    pbs_base_log := ⟨22⟩
    pbs_level := ⟨1⟩
    ks_level := ⟨5⟩
    ks_base_log := ⟨3⟩
    message_modulus := ⟨16⟩
    carry_modulus := ⟨2⟩
    ciphertext_modulus := CiphertextModulus.new_native
    encryption_key_choice := EncryptionKeyChoice.Big }

/-- Catalog preset with 4 message bits and 2 carry bits. -/
def PARAM_MESSAGE_4_CARRY_2 : PBSParameters :=
  { lwe_dimension := ⟨864⟩
    glwe_dimension := ⟨1⟩
    polynomial_size := ⟨8192⟩
    lwe_modular_std_dev := ⟨0.000000757998020150446⟩
    glwe_modular_std_dev := ⟨0.0000000000000000002168404344971009⟩
    pbs_base_log := ⟨15⟩
    pbs_level := ⟨2⟩
    ks_level := ⟨6⟩
    ks_base_log := ⟨3⟩
    message_modulus := ⟨16⟩
    carry_modulus := ⟨4⟩
    ciphertext_modulus := CiphertextModulus.new_native
    encryption_key_choice := EncryptionKeyChoice.Big }

/-- Catalog preset with 4 message bits and 3 carry bits. -/
def PARAM_MESSAGE_4_CARRY_3 : PBSParameters :=
  { lwe_dimension := ⟨930⟩
    glwe_dimension := ⟨1⟩
    polynomial_size := ⟨16384⟩
    lwe_modular_std_dev := ⟨0.00000022649232786295453⟩
    glwe_modular_std_dev := ⟨0.0000000000000000002168404344971009⟩
    pbs_base_log := ⟨15⟩
    pbs_level := ⟨2⟩
    ks_level := ⟨6⟩
    ks_base_log := ⟨3⟩
    message_modulus := ⟨16⟩
    carry_modulus := ⟨8⟩
    ciphertext_modulus := CiphertextModulus.new_native
    encryption_key_choice := EncryptionKeyChoice.Big }

/-- Catalog preset with 4 message bits and 4 carry bits. -/
def PARAM_MESSAGE_4_CARRY_4 : PBSParameters :=
  { lwe_dimension := ⟨996⟩
    glwe_dimension := ⟨1⟩
    polynomial_size := ⟨32768⟩
    lwe_modular_std_dev := ⟨0.00000006767666038309478⟩
    glwe_modular_std_dev := ⟨0.0000000000000000002168404344971009⟩
    pbs_base_log := ⟨15⟩
    pbs_level := ⟨2⟩
    ks_level := ⟨7⟩
    ks_base_log := ⟨3⟩
    message_modulus := ⟨16⟩
    carry_modulus := ⟨16⟩
    ciphertext_modulus := CiphertextModulus.new_native
    encryption_key_choice := EncryptionKeyChoice.Big }

/-- Catalog preset with 5 message bits and 1 carry bit. -/
def PARAM_MESSAGE_5_CARRY_1 : PBSParameters :=
  { lwe_dimension := ⟨875⟩
    glwe_dimension := ⟨1⟩
    polynomial_size := ⟨8192⟩
    lwe_modular_std_dev := ⟨0.0000006197725091905067⟩
    glwe_modular_std_dev := ⟨0.0000000000000000002168404344971009⟩
    pbs_base_log := ⟨22⟩
    pbs_level := ⟨1⟩
    ks_level := ⟨6⟩
    ks_base_log := ⟨3⟩
    message_modulus := ⟨32⟩
    carry_modulus := ⟨2⟩
    ciphertext_modulus := CiphertextModulus.new_native
    encryption_key_choice := EncryptionKeyChoice.Big }

/-- Catalog preset with 5 message bits and 2 carry bits. -/
def PARAM_MESSAGE_5_CARRY_2 : PBSParameters :=
  { lwe_dimension := ⟨930⟩
    glwe_dimension := ⟨1⟩
    polynomial_size := ⟨16384⟩
    lwe_modular_std_dev := ⟨0.00000022649232786295453⟩
    glwe_modular_std_dev := ⟨0.0000000000000000002168404344971009⟩
    pbs_base_log := ⟨15⟩
    pbs_level := ⟨2⟩
    ks_level := ⟨6⟩
    ks_base_log := ⟨3⟩
    message_modulus := ⟨32⟩
    carry_modulus := ⟨4⟩
    ciphertext_modulus := CiphertextModulus.new_native
    encryption_key_choice := EncryptionKeyChoice.Big }

/-- Catalog preset with 5 message bits and 3 carry bits. -/
def PARAM_MESSAGE_5_CARRY_3 : PBSParameters :=
  { lwe_dimension := ⟨1020⟩
    glwe_dimension := ⟨1⟩
    polynomial_size := ⟨32768⟩
    lwe_modular_std_dev := ⟨0.000000043618425315728666⟩
    glwe_modular_std_dev := ⟨0.0000000000000000002168404344971009⟩
    pbs_base_log := ⟨15⟩
    pbs_level := ⟨2⟩
    ks_level := ⟨5⟩
    ks_base_log := ⟨4⟩
    message_modulus := ⟨32⟩
    carry_modulus := ⟨8⟩
    ciphertext_modulus := CiphertextModulus.new_native
    encryption_key_choice := EncryptionKeyChoice.Big }

/-- Catalog preset with 6 message bits and 1 carry bit. -/
def PARAM_MESSAGE_6_CARRY_1 : PBSParameters :=
  { lwe_dimension := ⟨930⟩
    glwe_dimension := ⟨1⟩
    polynomial_size := ⟨16384⟩
    lwe_modular_std_dev := ⟨0.00000022649232786295453⟩
    glwe_modular_std_dev := ⟨0.0000000000000000002168404344971009⟩
    pbs_base_log := ⟨15⟩
    pbs_level := ⟨2⟩
    ks_level := ⟨6⟩
    ks_base_log := ⟨3⟩
    message_modulus := ⟨64⟩
    carry_modulus := ⟨2⟩
    ciphertext_modulus := CiphertextModulus.new_native
    encryption_key_choice := EncryptionKeyChoice.Big }

/-- Catalog preset with 6 message bits and 2 carry bits. -/
def PARAM_MESSAGE_6_CARRY_2 : PBSParameters :=
  { lwe_dimension := ⟨1018⟩
    glwe_dimension := ⟨1⟩
    polynomial_size := ⟨32768⟩
    lwe_modular_std_dev := ⟨0.000000045244666805696514⟩
    glwe_modular_std_dev := ⟨0.0000000000000000002168404344971009⟩
    pbs_base_log := ⟨15⟩
    pbs_level := ⟨2⟩
    ks_level := ⟨5⟩
    ks_base_log := ⟨4⟩
    message_modulus := ⟨64⟩
    carry_modulus := ⟨4⟩
    ciphertext_modulus := CiphertextModulus.new_native
    encryption_key_choice := EncryptionKeyChoice.Big }

/-- Catalog preset with 7 message bits and 1 carry bit. -/
def PARAM_MESSAGE_7_CARRY_1 : PBSParameters :=
  { lwe_dimension := ⟨1017⟩
    glwe_dimension := ⟨1⟩
    polynomial_size := ⟨32768⟩
    lwe_modular_std_dev := ⟨0.0000000460803851108693⟩
    glwe_modular_std_dev := ⟨0.0000000000000000002168404344971009⟩
    pbs_base_log := ⟨15⟩
    pbs_level := ⟨2⟩
    ks_level := ⟨5⟩
    ks_base_log := ⟨4⟩
    message_modulus := ⟨128⟩
    carry_modulus := ⟨2⟩
    ciphertext_modulus := CiphertextModulus.new_native
    encryption_key_choice := EncryptionKeyChoice.Big }

/-- Vector containing all parameter sets where the carry space is strictly
greater than one (WITH_CARRY_PARAMETERS_VEC). -/
def WITH_CARRY_PARAMETERS_VEC : List PBSParameters :=
  [PARAM_MESSAGE_1_CARRY_1,
   PARAM_MESSAGE_1_CARRY_2,
   PARAM_MESSAGE_1_CARRY_3,
   PARAM_MESSAGE_1_CARRY_4,
   PARAM_MESSAGE_1_CARRY_5,
   PARAM_MESSAGE_1_CARRY_6,
   PARAM_MESSAGE_1_CARRY_7,
   PARAM_MESSAGE_2_CARRY_1,
   PARAM_MESSAGE_2_CARRY_2,
   PARAM_MESSAGE_2_CARRY_3,
   PARAM_MESSAGE_2_CARRY_4,
   PARAM_MESSAGE_2_CARRY_5,
   PARAM_MESSAGE_2_CARRY_6,
   PARAM_MESSAGE_3_CARRY_1,
   PARAM_MESSAGE_3_CARRY_2,
   PARAM_MESSAGE_3_CARRY_3,
   PARAM_MESSAGE_3_CARRY_4,
   PARAM_MESSAGE_3_CARRY_5,
   PARAM_MESSAGE_4_CARRY_1,
   PARAM_MESSAGE_4_CARRY_2,
   PARAM_MESSAGE_4_CARRY_3,
   PARAM_MESSAGE_4_CARRY_4,
   PARAM_MESSAGE_5_CARRY_1,
   PARAM_MESSAGE_5_CARRY_2,
   PARAM_MESSAGE_5_CARRY_3,
   PARAM_MESSAGE_6_CARRY_1,
   PARAM_MESSAGE_6_CARRY_2,
   PARAM_MESSAGE_7_CARRY_1]

/-- Vector containing all parameter sets (ALL_PARAMETER_VEC). -/
def ALL_PARAMETER_VEC : List PBSParameters :=
  WITH_CARRY_PARAMETERS_VEC

/-- Fuel-driven ceiling base-2 logarithm; with enough fuel it agrees with
Nat.clog 2 and it evaluates by structural recursion. -/
def clog2Fuel : ℕ → ℕ → ℕ
  | 0, _ => 0
  | fuel + 1, n => if n ≤ 1 then 0 else clog2Fuel fuel ((n + 1) / 2) + 1

/-- Ceiling base-2 logarithm of a natural number. -/
def ceilLog2 (n : ℕ) : ℕ :=
  clog2Fuel n n

/-- Round-to-nearest (ties to even) of x at granularity 2 ^ e: the rounding an
IEEE-754 double performs on the significand below bit e. -/
def f64roundAux (x e : ℕ) : ℕ :=
  if 2 * (x % 2 ^ e) < 2 ^ e then x / 2 ^ e * 2 ^ e
  else if 2 ^ e < 2 * (x % 2 ^ e) then (x / 2 ^ e + 1) * 2 ^ e
  else if x / 2 ^ e % 2 = 0 then x / 2 ^ e * 2 ^ e
  else (x / 2 ^ e + 1) * 2 ^ e

/-- Models the Rust cast of a usize value to f64: values below 2^53 are exact,
larger values are rounded to the nearest multiple of a power of two so that 53
significant bits remain (ties to even). -/
def f64round (x : ℕ) : ℕ :=
  if x < 2 ^ 53 then x else f64roundAux x (Nat.log 2 x - 52)

/-- Models the Rust computation ceil(log2(x as f64)) as usize from the
resolver: the cast rounds x to the nearest double (f64round); log2 followed by
ceil then yields the exact base-2 ceiling logarithm of that rounded value; for
x = 0 the log2 is negative infinity and the saturating cast to usize yields 0,
the same value as for x = 1. -/
def ceilLog2F (x : ℕ) : ℕ :=
  if x ≤ 1 then 0 else ceilLog2 (f64round x)

/-- Return a parameter set from a message and carry moduli
(get_parameters_from_message_and_carry): rescale both requested spaces to the
next power of two, scan ALL_PARAMETER_VEC for the first entry with exactly the
rescaled moduli, and fall back to PARAM_MESSAGE_2_CARRY_2 when none matches.
The Boolean component models the found flag of the source; the source prints a
warning exactly when that flag is false. -/
def get_parameters_from_message_and_carry (msg_space carry_space : ℕ) :
    PBSParameters × Bool :=
  match ALL_PARAMETER_VEC.find? (fun param =>
      param.message_modulus.val == 2 ^ ceilLog2F msg_space
        && param.carry_modulus.val == 2 ^ ceilLog2F carry_space) with
  | some param => (param, true)
  | none => (PARAM_MESSAGE_2_CARRY_2, false)

/-- Sample extended record whose four shared fields match those of the fallback
preset PARAM_MESSAGE_2_CARRY_2 while its lwe_dimension differs. -/
def WOPBS_SAMPLE : WopbsParameters :=
  { lwe_dimension := ⟨769⟩
    glwe_dimension := ⟨2⟩
    polynomial_size := ⟨1024⟩
    lwe_modular_std_dev := ⟨0.0000043131554647504185⟩
    glwe_modular_std_dev := ⟨0.00000000000000031529322391500584⟩
    pbs_base_log := ⟨9⟩
    pbs_level := ⟨4⟩
    ks_base_log := ⟨2⟩
    ks_level := ⟨10⟩
    message_modulus := ⟨4⟩
    carry_modulus := ⟨4⟩
    ciphertext_modulus := CiphertextModulus.new_native
    encryption_key_choice := EncryptionKeyChoice.Big }

/-- Sample extended record that differs from PARAM_MESSAGE_2_CARRY_2 only in
the message modulus among the four shared fields. -/
def WOPBS_SAMPLE_MSG_MISMATCH : WopbsParameters :=
  { WOPBS_SAMPLE with message_modulus := ⟨8⟩ }

/-- Sample extended record that differs from PARAM_MESSAGE_2_CARRY_2 only in
the encryption key choice among the four shared fields. -/
def WOPBS_SAMPLE_KEY_MISMATCH : WopbsParameters :=
  { WOPBS_SAMPLE with encryption_key_choice := EncryptionKeyChoice.Small }

lemma clog2Fuel_eq_clog : ∀ fuel n, n ≤ fuel → clog2Fuel fuel n = Nat.clog 2 n := by
  intro fuel
  induction fuel with
  | zero =>
    intro n hn
    interval_cases n
    simp [clog2Fuel, Nat.clog_of_right_le_one]
  | succ fuel ih =>
    intro n hn
    by_cases h1 : n ≤ 1
    · simp [clog2Fuel, h1, Nat.clog_of_right_le_one h1]
    · have h2 : 2 ≤ n := by omega
      have hrec : (n + 1) / 2 ≤ fuel := by omega
      rw [show clog2Fuel (fuel + 1) n = clog2Fuel fuel ((n + 1) / 2) + 1 by
            simp [clog2Fuel, h1],
          ih _ hrec, Nat.clog_of_two_le (by norm_num) h2]
      norm_num

lemma ceilLog2_eq_clog (n : ℕ) : ceilLog2 n = Nat.clog 2 n :=
  clog2Fuel_eq_clog n n le_rfl

lemma f64roundAux_le (x e : ℕ) : f64roundAux x e ≤ (x / 2 ^ e + 1) * 2 ^ e := by
  unfold f64roundAux
  have hmul : x / 2 ^ e * 2 ^ e ≤ (x / 2 ^ e + 1) * 2 ^ e :=
    Nat.mul_le_mul_right _ (Nat.le_succ _)
  split_ifs <;> simp [hmul]

lemma f64roundAux_of_dvd (x e : ℕ) (h : 2 ^ e ∣ x) : f64roundAux x e = x := by
  unfold f64roundAux
  have hr : x % 2 ^ e = 0 := Nat.mod_eq_zero_of_dvd h
  rw [hr]
  rw [if_pos (by positivity)]
  exact Nat.div_mul_cancel h

lemma f64round_le_pow63 (x : ℕ) (hx : x ≤ 2 ^ 63) : f64round x ≤ 2 ^ 63 := by
  unfold f64round
  split_ifs with hsmall
  · exact hx
  · have h53 : 2 ^ 53 ≤ x := le_of_not_lt hsmall
    have hx0 : x ≠ 0 := by
      intro h
      rw [h] at h53
      exact absurd h53 (by norm_num)
    have hL53 : 53 ≤ Nat.log 2 x :=
      (Nat.pow_le_iff_le_log (by norm_num) hx0).mp h53
    by_cases hx63 : x = 2 ^ 63
    · subst hx63
      have hl : Nat.log 2 (2 ^ 63) = 63 := Nat.log_pow (by norm_num) 63
      rw [hl]
      have hd : f64roundAux (2 ^ 63) (63 - 52) = 2 ^ 63 :=
        f64roundAux_of_dvd _ _ (pow_dvd_pow 2 (by norm_num))
      rw [hd]
    · have hxlt : x < 2 ^ 63 := lt_of_le_of_ne hx hx63
      have hL62 : Nat.log 2 x ≤ 62 := by
        by_contra hcon
        push_neg at hcon
        have hpow : 2 ^ 63 ≤ 2 ^ Nat.log 2 x := Nat.pow_le_pow_right (by norm_num) (by omega)
        have hself : 2 ^ Nat.log 2 x ≤ x := Nat.pow_log_le_self 2 hx0
        omega
      have hq : x / 2 ^ (Nat.log 2 x - 52) < 2 ^ 53 := by
        have hxpow : x < 2 ^ (Nat.log 2 x + 1) := Nat.lt_pow_succ_log_self (by norm_num) x
        have hsum : Nat.log 2 x - 52 + 53 = Nat.log 2 x + 1 := by omega
        have hxmul : x < 2 ^ (Nat.log 2 x - 52) * 2 ^ 53 := by
          rw [← pow_add, hsum]
          exact hxpow
        exact Nat.div_lt_of_lt_mul hxmul
      calc f64roundAux x (Nat.log 2 x - 52)
          ≤ (x / 2 ^ (Nat.log 2 x - 52) + 1) * 2 ^ (Nat.log 2 x - 52) :=
            f64roundAux_le x (Nat.log 2 x - 52)
        _ ≤ 2 ^ 53 * 2 ^ (Nat.log 2 x - 52) := Nat.mul_le_mul_right _ (by omega)
        _ = 2 ^ (53 + (Nat.log 2 x - 52)) := (pow_add 2 53 (Nat.log 2 x - 52)).symm
        _ ≤ 2 ^ 63 := Nat.pow_le_pow_right (by norm_num) (by omega)

lemma ceilLog2F_le_63 (x : ℕ) (hx : x ≤ 2 ^ 63) : ceilLog2F x ≤ 63 := by
  unfold ceilLog2F
  split_ifs with h1
  · omega
  · rw [ceilLog2_eq_clog]
    calc Nat.clog 2 (f64round x) ≤ Nat.clog 2 (2 ^ 63) :=
          Nat.clog_mono_right 2 (f64round_le_pow63 x hx)
      _ = 63 := Nat.clog_pow 2 63 (by norm_num)

lemma try_new_eq_ok (p : PBSParameters) (w : WopbsParameters) (h : shared_fields_eq p w) :
    ShortintParameterSet.try_new_pbs_and_wopbs_param_set (p, w) =
      Except.ok { inner := ShortintParameterSetInner.PBSAndWopbs p w } := by
  obtain ⟨h1, h2, h3, h4⟩ := h
  simp [ShortintParameterSet.try_new_pbs_and_wopbs_param_set, h1, h2, h3, h4]

lemma try_new_eq_error (p : PBSParameters) (w : WopbsParameters) (h : ¬ shared_fields_eq p w) :
    ShortintParameterSet.try_new_pbs_and_wopbs_param_set (p, w) =
      Except.error incompatible_params_err := by
  unfold shared_fields_eq at h
  have hc : p.carry_modulus ≠ w.carry_modulus ∨ p.message_modulus ≠ w.message_modulus
      ∨ p.ciphertext_modulus ≠ w.ciphertext_modulus
      ∨ p.encryption_key_choice ≠ w.encryption_key_choice := by
    tauto
  simp only [ShortintParameterSet.try_new_pbs_and_wopbs_param_set]
  rw [if_pos hc]

lemma try_new_ok_inv (p : PBSParameters) (w : WopbsParameters) (s : ShortintParameterSet)
    (h : ShortintParameterSet.try_new_pbs_and_wopbs_param_set (p, w) = Except.ok s) :
    shared_fields_eq p w ∧ s = { inner := ShortintParameterSetInner.PBSAndWopbs p w } := by
  by_cases hcond : shared_fields_eq p w
  · rw [try_new_eq_ok p w hcond] at h
    simp only [Except.ok.injEq] at h
    exact ⟨hcond, h.symm⟩
  · rw [try_new_eq_error p w hcond] at h
    exact absurd h (by simp)

/-- Claim C1 (amended): the validated constructor succeeds and returns the
PBSAndWopbs handle over exactly the two input records when the four shared
fields are pairwise equal, and otherwise fails with the fixed
IncompatibleParameters error, constructing no handle. -/
theorem c1_combine_iff_shared_fields_eq :
    ∀ (p : PBSParameters) (w : WopbsParameters),
      (shared_fields_eq p w →
        ShortintParameterSet.try_new_pbs_and_wopbs_param_set (p, w) =
          Except.ok { inner := ShortintParameterSetInner.PBSAndWopbs p w }) ∧
      (¬ shared_fields_eq p w →
        ShortintParameterSet.try_new_pbs_and_wopbs_param_set (p, w) =
          Except.error incompatible_params_err) ∧
      (∀ s, ShortintParameterSet.try_new_pbs_and_wopbs_param_set (p, w) = Except.ok s →
        shared_fields_eq p w ∧ s = { inner := ShortintParameterSetInner.PBSAndWopbs p w }) :=
  fun p w => ⟨try_new_eq_ok p w, try_new_eq_error p w, try_new_ok_inv p w⟩

/-- Claim C1 witness: on a pair with equal shared fields, the constructor
returns the combined handle. -/
theorem c1_witness :
    shared_fields_eq PARAM_MESSAGE_2_CARRY_2 WOPBS_SAMPLE ∧
    ShortintParameterSet.try_new_pbs_and_wopbs_param_set (PARAM_MESSAGE_2_CARRY_2, WOPBS_SAMPLE) =
      Except.ok { inner :=
        ShortintParameterSetInner.PBSAndWopbs PARAM_MESSAGE_2_CARRY_2 WOPBS_SAMPLE } :=
  ⟨by decide, (c1_combine_iff_shared_fields_eq PARAM_MESSAGE_2_CARRY_2 WOPBS_SAMPLE).1 (by decide)⟩

/-- Claim C1 counterexample: a pair mismatching only in the message modulus and
a pair mismatching only in the encryption key choice receive the same error
value, so the error cannot be naming the mismatched field class. -/
theorem c1_counterexample :
    ShortintParameterSet.try_new_pbs_and_wopbs_param_set
        (PARAM_MESSAGE_2_CARRY_2, WOPBS_SAMPLE_MSG_MISMATCH) =
      Except.error incompatible_params_err ∧
    ShortintParameterSet.try_new_pbs_and_wopbs_param_set
        (PARAM_MESSAGE_2_CARRY_2, WOPBS_SAMPLE_KEY_MISMATCH) =
      Except.error incompatible_params_err ∧
    PARAM_MESSAGE_2_CARRY_2.message_modulus ≠ WOPBS_SAMPLE_MSG_MISMATCH.message_modulus ∧
    PARAM_MESSAGE_2_CARRY_2.encryption_key_choice
      = WOPBS_SAMPLE_MSG_MISMATCH.encryption_key_choice ∧
    PARAM_MESSAGE_2_CARRY_2.message_modulus = WOPBS_SAMPLE_KEY_MISMATCH.message_modulus ∧
    PARAM_MESSAGE_2_CARRY_2.encryption_key_choice
      ≠ WOPBS_SAMPLE_KEY_MISMATCH.encryption_key_choice :=
  ⟨rfl, rfl, by decide, rfl, rfl, by decide⟩

set_option maxRecDepth 4000 in
/-- Claim C10: on every mismatching pair the validated constructor returns one
and the same error value, the fixed message listing all four possible causes
(carry moduli, message moduli, ciphertext moduli, encryption key choices) with
no indication of which field actually mismatched. -/
theorem c10_single_error_value :
    (∀ (p : PBSParameters) (w : WopbsParameters), ¬ shared_fields_eq p w →
      ShortintParameterSet.try_new_pbs_and_wopbs_param_set (p, w) =
        Except.error incompatible_params_err) ∧
    "carry moduli".data <:+: incompatible_params_err.data ∧
    "message moduli".data <:+: incompatible_params_err.data ∧
    "ciphertext moduli".data <:+: incompatible_params_err.data ∧
    "encryption key choices".data <:+: incompatible_params_err.data :=
  ⟨try_new_eq_error, by decide, by decide, by decide, by decide⟩

/-- Claim C10 witness: a concrete pair mismatching in the message modulus
receives the fixed error message. -/
theorem c10_witness :
    ¬ shared_fields_eq PARAM_MESSAGE_2_CARRY_2 WOPBS_SAMPLE_MSG_MISMATCH ∧
    ShortintParameterSet.try_new_pbs_and_wopbs_param_set
        (PARAM_MESSAGE_2_CARRY_2, WOPBS_SAMPLE_MSG_MISMATCH) =
      Except.error incompatible_params_err :=
  ⟨by decide,
   c10_single_error_value.1 PARAM_MESSAGE_2_CARRY_2 WOPBS_SAMPLE_MSG_MISMATCH (by decide)⟩

/-- Claim C3 counterexample: the key-choice mapping sends Big to the
KeyswitchBootstrap order, not to the BootstrapKeyswitch (bootstrap-then-
keyswitch) order, and Small to BootstrapKeyswitch, not to KeyswitchBootstrap. -/
theorem c3_counterexample :
    PBSOrder.from_encryption_key_choice EncryptionKeyChoice.Big ≠ PBSOrder.BootstrapKeyswitch ∧
    PBSOrder.from_encryption_key_choice EncryptionKeyChoice.Small ≠ PBSOrder.KeyswitchBootstrap := by
  decide

/-- Claim C3 (amended): the key-choice mapping is total and pure, sends Big to
the KeyswitchBootstrap (keyswitch-then-bootstrap) order and Small to the
BootstrapKeyswitch (bootstrap-then-keyswitch) order, and is a bijection over
its two-element domain, so no third order value is ever produced. -/
theorem c3_key_choice_mapping :
    PBSOrder.from_encryption_key_choice EncryptionKeyChoice.Big = PBSOrder.KeyswitchBootstrap ∧
    PBSOrder.from_encryption_key_choice EncryptionKeyChoice.Small = PBSOrder.BootstrapKeyswitch ∧
    Function.Bijective PBSOrder.from_encryption_key_choice := by
  refine ⟨rfl, rfl, ?_, ?_⟩
  · intro a b hab
    cases a <;> cases b <;> simp_all [PBSOrder.from_encryption_key_choice]
  · intro o
    cases o
    · exact ⟨EncryptionKeyChoice.Big, rfl⟩
    · exact ⟨EncryptionKeyChoice.Small, rfl⟩

/-- Claim C6: wrapping a bootstrap record and projecting it back yields the
original record, and on every pair with equal shared fields the validated
constructor returns a handle whose projections are exactly the two input
records. -/
theorem c6_round_trip :
    (∀ r : PBSParameters,
      (ShortintParameterSet.new_pbs_param_set r).pbs_parameters = some r) ∧
    (∀ (p : PBSParameters) (w : WopbsParameters), shared_fields_eq p w →
      ∃ s, ShortintParameterSet.try_new_pbs_and_wopbs_param_set (p, w) = Except.ok s ∧
        s.pbs_parameters = some p ∧ s.wopbs_parameters = some w) := by
  constructor
  · intro r
    rfl
  · intro p w h
    exact ⟨{ inner := ShortintParameterSetInner.PBSAndWopbs p w },
           try_new_eq_ok p w h, rfl, rfl⟩

/-- Claim C6 witness: the round trip on a concrete pair with equal shared
fields. -/
theorem c6_witness :
    shared_fields_eq PARAM_MESSAGE_2_CARRY_2 WOPBS_SAMPLE ∧
    (∃ s, ShortintParameterSet.try_new_pbs_and_wopbs_param_set
        (PARAM_MESSAGE_2_CARRY_2, WOPBS_SAMPLE) = Except.ok s ∧
      s.pbs_parameters = some PARAM_MESSAGE_2_CARRY_2 ∧
      s.wopbs_parameters = some WOPBS_SAMPLE) :=
  ⟨by decide, c6_round_trip.2 PARAM_MESSAGE_2_CARRY_2 WOPBS_SAMPLE (by decide)⟩

/-- Claim C7: for every handle exactly one of the three classification
predicates holds; they are mutually exclusive and exhaustive. -/
theorem c7_classification_exactly_one :
    ∀ s : ShortintParameterSet,
      (s.pbs_only = true ∧ s.wopbs_only = false ∧ s.pbs_and_wopbs = false) ∨
      (s.pbs_only = false ∧ s.wopbs_only = true ∧ s.pbs_and_wopbs = false) ∨
      (s.pbs_only = false ∧ s.wopbs_only = false ∧ s.pbs_and_wopbs = true) := by
  rintro ⟨inner⟩
  cases inner
  · exact Or.inl ⟨rfl, rfl, rfl⟩
  · exact Or.inr (Or.inl ⟨rfl, rfl, rfl⟩)
  · exact Or.inr (Or.inr ⟨rfl, rfl, rfl⟩)

/-- Claim C2 (amended): every one of the thirteen accessors is total over the
three variants, returning the stored record's field (for the combined variant,
the bootstrap record's field); on every combined handle built through the
validated constructor the four checked fields (message modulus, carry modulus,
ciphertext modulus, encryption key choice) agree between the two inner records,
so reading either one gives the same value, while the remaining nine fields are
read from the bootstrap record only. -/
theorem c2_accessors :
    (∀ r : PBSParameters,
      (ShortintParameterSet.new_pbs_param_set r).lwe_dimension = r.lwe_dimension ∧
      (ShortintParameterSet.new_pbs_param_set r).glwe_dimension = r.glwe_dimension ∧
      (ShortintParameterSet.new_pbs_param_set r).polynomial_size = r.polynomial_size ∧
      (ShortintParameterSet.new_pbs_param_set r).lwe_modular_std_dev = r.lwe_modular_std_dev ∧
      (ShortintParameterSet.new_pbs_param_set r).glwe_modular_std_dev = r.glwe_modular_std_dev ∧
      (ShortintParameterSet.new_pbs_param_set r).pbs_base_log = r.pbs_base_log ∧
      (ShortintParameterSet.new_pbs_param_set r).pbs_level = r.pbs_level ∧
      (ShortintParameterSet.new_pbs_param_set r).ks_base_log = r.ks_base_log ∧
      (ShortintParameterSet.new_pbs_param_set r).ks_level = r.ks_level ∧
      (ShortintParameterSet.new_pbs_param_set r).message_modulus = r.message_modulus ∧
      (ShortintParameterSet.new_pbs_param_set r).carry_modulus = r.carry_modulus ∧
      (ShortintParameterSet.new_pbs_param_set r).ciphertext_modulus = r.ciphertext_modulus ∧
      (ShortintParameterSet.new_pbs_param_set r).encryption_key_choice
        = r.encryption_key_choice) ∧
    (∀ w : WopbsParameters,
      (ShortintParameterSet.new_wopbs_param_set w).lwe_dimension = w.lwe_dimension ∧
      (ShortintParameterSet.new_wopbs_param_set w).glwe_dimension = w.glwe_dimension ∧
      (ShortintParameterSet.new_wopbs_param_set w).polynomial_size = w.polynomial_size ∧
      (ShortintParameterSet.new_wopbs_param_set w).lwe_modular_std_dev = w.lwe_modular_std_dev ∧
      (ShortintParameterSet.new_wopbs_param_set w).glwe_modular_std_dev = w.glwe_modular_std_dev ∧
      (ShortintParameterSet.new_wopbs_param_set w).pbs_base_log = w.pbs_base_log ∧
      (ShortintParameterSet.new_wopbs_param_set w).pbs_level = w.pbs_level ∧
      (ShortintParameterSet.new_wopbs_param_set w).ks_base_log = w.ks_base_log ∧
      (ShortintParameterSet.new_wopbs_param_set w).ks_level = w.ks_level ∧
      (ShortintParameterSet.new_wopbs_param_set w).message_modulus = w.message_modulus ∧
      (ShortintParameterSet.new_wopbs_param_set w).carry_modulus = w.carry_modulus ∧
      (ShortintParameterSet.new_wopbs_param_set w).ciphertext_modulus = w.ciphertext_modulus ∧
      (ShortintParameterSet.new_wopbs_param_set w).encryption_key_choice
        = w.encryption_key_choice) ∧
    (∀ (p : PBSParameters) (w : WopbsParameters) (s : ShortintParameterSet),
      ShortintParameterSet.try_new_pbs_and_wopbs_param_set (p, w) = Except.ok s →
      (s.message_modulus = p.message_modulus ∧ s.message_modulus = w.message_modulus) ∧
      (s.carry_modulus = p.carry_modulus ∧ s.carry_modulus = w.carry_modulus) ∧
      (s.ciphertext_modulus = p.ciphertext_modulus ∧
        s.ciphertext_modulus = w.ciphertext_modulus) ∧
      (s.encryption_key_choice = p.encryption_key_choice ∧
        s.encryption_key_choice = w.encryption_key_choice) ∧
      s.lwe_dimension = p.lwe_dimension ∧
      s.glwe_dimension = p.glwe_dimension ∧
      s.polynomial_size = p.polynomial_size ∧
      s.lwe_modular_std_dev = p.lwe_modular_std_dev ∧
      s.glwe_modular_std_dev = p.glwe_modular_std_dev ∧
      s.pbs_base_log = p.pbs_base_log ∧
      s.pbs_level = p.pbs_level ∧
      s.ks_base_log = p.ks_base_log ∧
      s.ks_level = p.ks_level) := by
  refine ⟨fun r => ⟨rfl, rfl, rfl, rfl, rfl, rfl, rfl, rfl, rfl, rfl, rfl, rfl, rfl⟩,
          fun w => ⟨rfl, rfl, rfl, rfl, rfl, rfl, rfl, rfl, rfl, rfl, rfl, rfl, rfl⟩, ?_⟩
  intro p w s h
  obtain ⟨⟨h1, h2, h3, h4⟩, rfl⟩ := try_new_ok_inv p w s h
  exact ⟨⟨rfl, h2⟩, ⟨rfl, h1⟩, ⟨rfl, h3⟩, ⟨rfl, h4⟩,
         rfl, rfl, rfl, rfl, rfl, rfl, rfl, rfl, rfl⟩

/-- Claim C2 witness: the four checked accessors agree with both inner records
on a concrete validated combined handle. -/
theorem c2_witness :
    ShortintParameterSet.try_new_pbs_and_wopbs_param_set (PARAM_MESSAGE_2_CARRY_2, WOPBS_SAMPLE) =
      Except.ok { inner :=
        ShortintParameterSetInner.PBSAndWopbs PARAM_MESSAGE_2_CARRY_2 WOPBS_SAMPLE } ∧
    ({ inner := ShortintParameterSetInner.PBSAndWopbs PARAM_MESSAGE_2_CARRY_2 WOPBS_SAMPLE } :
        ShortintParameterSet).message_modulus = PARAM_MESSAGE_2_CARRY_2.message_modulus ∧
    ({ inner := ShortintParameterSetInner.PBSAndWopbs PARAM_MESSAGE_2_CARRY_2 WOPBS_SAMPLE } :
        ShortintParameterSet).message_modulus = WOPBS_SAMPLE.message_modulus :=
  ⟨rfl, (c2_accessors.2.2 PARAM_MESSAGE_2_CARRY_2 WOPBS_SAMPLE
    { inner := ShortintParameterSetInner.PBSAndWopbs PARAM_MESSAGE_2_CARRY_2 WOPBS_SAMPLE }
    rfl).1⟩

/-- Claim C2 counterexample: a validated combined handle whose two inner
records disagree on lwe_dimension, so for the lwe_dimension accessor the value
read from the bootstrap record differs from the extended record's value. -/
theorem c2_counterexample :
    ShortintParameterSet.try_new_pbs_and_wopbs_param_set (PARAM_MESSAGE_2_CARRY_2, WOPBS_SAMPLE) =
      Except.ok { inner :=
        ShortintParameterSetInner.PBSAndWopbs PARAM_MESSAGE_2_CARRY_2 WOPBS_SAMPLE } ∧
    ({ inner := ShortintParameterSetInner.PBSAndWopbs PARAM_MESSAGE_2_CARRY_2 WOPBS_SAMPLE } :
        ShortintParameterSet).lwe_dimension = PARAM_MESSAGE_2_CARRY_2.lwe_dimension ∧
    PARAM_MESSAGE_2_CARRY_2.lwe_dimension ≠ WOPBS_SAMPLE.lwe_dimension :=
  ⟨rfl, rfl, by decide⟩

/-- Claim C4: resolving message space 7 and carry space 2 rescales them to the
powers of two 8 and 2 and returns the catalog preset PARAM_MESSAGE_3_CARRY_1,
whose message modulus is 8 and carry modulus is 2. -/
theorem c4_resolve_7_2 :
    2 ^ ceilLog2F 7 = 8 ∧ 2 ^ ceilLog2F 2 = 2 ∧
    (get_parameters_from_message_and_carry 7 2).1 = PARAM_MESSAGE_3_CARRY_1 ∧
    PARAM_MESSAGE_3_CARRY_1.message_modulus = ⟨8⟩ ∧
    PARAM_MESSAGE_3_CARRY_1.carry_modulus = ⟨2⟩ :=
  ⟨rfl, rfl, rfl, rfl, rfl⟩

/-- Claim C5: a requested message space of at most 1 rescales to 1, matches no
catalog entry (every entry has message modulus at least 2), and the resolver
returns the fallback preset PARAM_MESSAGE_2_CARRY_2 with the found flag false
(the source emits its warning exactly in that case). -/
theorem c5_resolve_fallback (msg_space carry_space : ℕ) (h : msg_space ≤ 1) :
    (∀ q ∈ ALL_PARAMETER_VEC, 2 ≤ q.message_modulus.val) ∧
    2 ^ ceilLog2F msg_space = 1 ∧
    get_parameters_from_message_and_carry msg_space carry_space =
      (PARAM_MESSAGE_2_CARRY_2, false) := by
  have hge2 : ∀ q ∈ ALL_PARAMETER_VEC, 2 ≤ q.message_modulus.val := by decide
  have h0 : ceilLog2F msg_space = 0 := by
    unfold ceilLog2F
    exact if_pos h
  refine ⟨hge2, by rw [h0]; rfl, ?_⟩
  unfold get_parameters_from_message_and_carry
  rw [h0]
  have hnone : ALL_PARAMETER_VEC.find? (fun param =>
      param.message_modulus.val == 2 ^ 0
        && param.carry_modulus.val == 2 ^ ceilLog2F carry_space) = none := by
    rw [List.find?_eq_none]
    intro q hq
    simp only [pow_zero, Bool.and_eq_true, beq_iff_eq]
    rintro ⟨h1, _⟩
    have := hge2 q hq
    omega
  rw [hnone]

/-- Claim C5 witness: resolving (1, 1) yields the fallback preset with the
found flag false. -/
theorem c5_witness :
    (1 : ℕ) ≤ 1 ∧
    ((∀ q ∈ ALL_PARAMETER_VEC, 2 ≤ q.message_modulus.val) ∧
      2 ^ ceilLog2F 1 = 1 ∧
      get_parameters_from_message_and_carry 1 1 = (PARAM_MESSAGE_2_CARRY_2, false)) :=
  ⟨le_rfl, c5_resolve_fallback 1 1 le_rfl⟩

/-- Boolean test that a natural number is a power of two with exponent below
64. -/
def is_pow2 (n : ℕ) : Bool :=
  (List.range 64).any (fun k => n == 2 ^ k)

lemma exists_pow_of_is_pow2 {n : ℕ} (h : is_pow2 n = true) : ∃ k, n = 2 ^ k := by
  unfold is_pow2 at h
  rcases List.any_eq_true.mp h with ⟨k, _hk, hkn⟩
  exact ⟨k, by simpa using hkn⟩

lemma find_first_matching_unique :
    ∀ l : List PBSParameters,
      (l.map (fun q => (q.message_modulus.val, q.carry_modulus.val))).Nodup →
      ∀ p ∈ l,
        l.find? (fun q => q.message_modulus.val == p.message_modulus.val
          && q.carry_modulus.val == p.carry_modulus.val) = some p := by
  intro l
  induction l with
  | nil =>
    intro _ p hp
    cases hp
  | cons a t ih =>
    intro hnd p hp
    rw [List.map_cons, List.nodup_cons] at hnd
    rcases List.mem_cons.mp hp with rfl | hpt
    · rw [List.find?_cons_of_pos _ (by simp)]
    · rw [List.find?_cons_of_neg]
      · exact ih hnd.2 p hpt
      · simp only [Bool.and_eq_true, beq_iff_eq]
        rintro ⟨hm, hc⟩
        apply hnd.1
        have hmem : (p.message_modulus.val, p.carry_modulus.val) ∈
            t.map (fun q => (q.message_modulus.val, q.carry_modulus.val)) :=
          List.mem_map_of_mem _ hpt
        rw [show (a.message_modulus.val, a.carry_modulus.val)
            = (p.message_modulus.val, p.carry_modulus.val) from by rw [hm, hc]]
        exact hmem

/-- Claim C8: every one of the 28 catalog entries has message and carry moduli
that are powers of two at least 2, the 28 (message, carry) pairs are pairwise
distinct, and hence the first-match scan of the catalog finds exactly the
unique entry carrying a given pair of moduli. -/
theorem c8_catalog_invariant :
    (∀ q ∈ ALL_PARAMETER_VEC,
      (2 ≤ q.message_modulus.val ∧ ∃ k, q.message_modulus.val = 2 ^ k) ∧
      (2 ≤ q.carry_modulus.val ∧ ∃ k, q.carry_modulus.val = 2 ^ k)) ∧
    (ALL_PARAMETER_VEC.map (fun q => (q.message_modulus.val, q.carry_modulus.val))).Nodup ∧
    ALL_PARAMETER_VEC.length = 28 ∧
    (∀ p ∈ ALL_PARAMETER_VEC,
      ALL_PARAMETER_VEC.find? (fun q => q.message_modulus.val == p.message_modulus.val
        && q.carry_modulus.val == p.carry_modulus.val) = some p) := by
  have hnd : (ALL_PARAMETER_VEC.map
      (fun q => (q.message_modulus.val, q.carry_modulus.val))).Nodup := by decide
  refine ⟨?_, hnd, rfl, find_first_matching_unique _ hnd⟩
  have hbool : ∀ q ∈ ALL_PARAMETER_VEC,
      (2 ≤ q.message_modulus.val ∧ is_pow2 q.message_modulus.val = true) ∧
      (2 ≤ q.carry_modulus.val ∧ is_pow2 q.carry_modulus.val = true) := by decide
  intro q hq
  obtain ⟨⟨hm2, hmp⟩, hc2, hcp⟩ := hbool q hq
  exact ⟨⟨hm2, exists_pow_of_is_pow2 hmp⟩, ⟨hc2, exists_pow_of_is_pow2 hcp⟩⟩

/-- Claim C8 witness: the first-match scan at the moduli of the first catalog
entry returns that entry. -/
theorem c8_witness :
    PARAM_MESSAGE_1_CARRY_1 ∈ ALL_PARAMETER_VEC ∧
    ALL_PARAMETER_VEC.find? (fun q =>
      q.message_modulus.val == PARAM_MESSAGE_1_CARRY_1.message_modulus.val
        && q.carry_modulus.val == PARAM_MESSAGE_1_CARRY_1.carry_modulus.val)
      = some PARAM_MESSAGE_1_CARRY_1 :=
  ⟨by simp [ALL_PARAMETER_VEC, WITH_CARRY_PARAMETERS_VEC],
   c8_catalog_invariant.2.2.2 PARAM_MESSAGE_1_CARRY_1
     (by simp [ALL_PARAMETER_VEC, WITH_CARRY_PARAMETERS_VEC])⟩

/-- Claim C9: for inputs up to 2^63 (including 0, which rescales to 1 exactly
as input 1 does) the resolver is total: both rescaling shift amounts stay below
64, both rescaled spaces fit in the 64-bit word, and a catalog record is
returned. -/
theorem c9_resolver_total (msg_space carry_space : ℕ)
    (hm : msg_space ≤ 2 ^ 63) (hc : carry_space ≤ 2 ^ 63) :
    ceilLog2F msg_space < 64 ∧ ceilLog2F carry_space < 64 ∧
    2 ^ ceilLog2F msg_space ≤ 2 ^ 63 ∧ 2 ^ ceilLog2F carry_space ≤ 2 ^ 63 ∧
    (get_parameters_from_message_and_carry msg_space carry_space).1 ∈ ALL_PARAMETER_VEC := by
  have h1 := ceilLog2F_le_63 msg_space hm
  have h2 := ceilLog2F_le_63 carry_space hc
  refine ⟨by omega, by omega,
    Nat.pow_le_pow_right (by norm_num) h1, Nat.pow_le_pow_right (by norm_num) h2, ?_⟩
  unfold get_parameters_from_message_and_carry
  split
  · next param heq =>
    exact List.mem_of_find?_eq_some heq
  · next heq =>
    simp [ALL_PARAMETER_VEC, WITH_CARRY_PARAMETERS_VEC]

/-- Claim C9 witness: resolver totality instantiated at the inputs 7 and 2. -/
theorem c9_witness :
    (7 : ℕ) ≤ 2 ^ 63 ∧ (2 : ℕ) ≤ 2 ^ 63 ∧
    (ceilLog2F 7 < 64 ∧ ceilLog2F 2 < 64 ∧
      2 ^ ceilLog2F 7 ≤ 2 ^ 63 ∧ 2 ^ ceilLog2F 2 ≤ 2 ^ 63 ∧
      (get_parameters_from_message_and_carry 7 2).1 ∈ ALL_PARAMETER_VEC) :=
  ⟨by norm_num, by norm_num, c9_resolver_total 7 2 (by norm_num) (by norm_num)⟩
